import Mathlib

/-!
Shallow embedding of `src/multi_model.py`: a script that fine-tunes a
transformer sequence classifier on the BoolQ dataset, sweeping learning
rate and epoch count, and plotting validation/test accuracy.

The deterministic glue logic (argument parsing, the hyperparameter sweep,
dataset slicing, dataset indexing and tokenisation plumbing, the shape of
the training loop, metric bookkeeping, and the plotting/saving step) is
translated directly from the source.  The stochastic ML framework calls
(the transformer forward pass, backprop, the optimiser and scheduler
internals, the tokenizer's subword algorithm, the dataset download and
shuffle) are abstracted as oracle parameters: an abstract model-state type
with abstract forward/step functions, an abstract tokenizer function, and
an arbitrary already-shuffled dataset.  All theorems quantify over those
oracles.
-/

namespace MultiModel

/-- A Python runtime value, as far as the script's argument handling needs:
`argparse` stores `None`, `bool` (from `action='store_true'`), `int`,
`float` and `str` values in the `args` namespace, and `pre_process` is
called with the *string* `'store_true'` for its `small_subset` parameter,
whose truthiness decides the slicing branch. -/
inductive PyVal where
  | pyNone : PyVal
  | pyBool : Bool → PyVal
  | pyInt : Int → PyVal
  | pyFloat : Rat → PyVal
  | pyStr : String → PyVal
deriving DecidableEq, Repr

/-- Python truthiness: `None` and empty/zero values are falsy. -/
def PyVal.truthy : PyVal → Bool
  | .pyNone => false
  | .pyBool b => b
  | .pyInt n => n != 0
  | .pyFloat q => q != 0
  | .pyStr s => s != ""

/-- `type(v) == bool` for a Python value. -/
def PyVal.isBool : PyVal → Bool
  | .pyBool _ => true
  | _ => false

/-- The `args` namespace produced by the script's `argparse` parser
(`--experiment`, `--small_subset`, `--num_epochs`, `--lr`,
`--batch_size`, `--device`, `--model`). -/
structure Args where
  experiment : PyVal
  small_subset : PyVal
  num_epochs : PyVal
  lr : PyVal
  batch_size : PyVal
  device : PyVal
  model : PyVal
deriving DecidableEq, Repr

/-- The parser defaults: `experiment=None`, `small_subset=False` (the
`store_true` default), `num_epochs=1`, `lr=5e-5`, `batch_size=32`,
`device="cuda"`, `model="distilbert-base-uncased"`. -/
def defaultArgs : Args :=
  { experiment := .pyNone
    small_subset := .pyBool false
    num_epochs := .pyInt 1
    lr := .pyFloat (5 / 100000)
    batch_size := .pyInt 32
    device := .pyStr "cuda"
    model := .pyStr "distilbert-base-uncased" }

/-- Store the value token `v` of a typed option `flag` into the `args`
namespace, converting it with the option's declared `type` (`str` for
`--experiment`, `--device` and `--model`; `int` for `--num_epochs` and
`--batch_size`; `float` — kept abstract as `parseFloat` — for `--lr`).  A
failed conversion makes `argparse` error out (`none`). -/
def applyFlagValue (parseFloat : String → Option Rat) (a : Args)
    (flag v : String) : Option Args :=
  if flag = "--experiment" then some { a with experiment := .pyStr v }
  else if flag = "--num_epochs" then
    (v.toInt?).map fun n => { a with num_epochs := .pyInt n }
  else if flag = "--lr" then
    (parseFloat v).map fun q => { a with lr := .pyFloat q }
  else if flag = "--batch_size" then
    (v.toInt?).map fun n => { a with batch_size := .pyInt n }
  else if flag = "--device" then some { a with device := .pyStr v }
  else if flag = "--model" then some { a with model := .pyStr v }
  else none

/-- The parser's token-processing state: the `args` namespace filled so
far, and the typed option (if any) whose value token comes next. -/
structure ParseState where
  args : Args
  pending : Option String
deriving DecidableEq, Repr

/-- One token of the `argparse` loop.  `--small_subset` was declared with
`action='store_true'`, so seeing the flag stores the Python bool `True`
and consumes no value token; every other declared option consumes the
following token as its value; a token that matches no declared option
makes `argparse` error out (modelled as `none`). -/
def parseStep (parseFloat : String → Option Rat) (st : ParseState)
    (t : String) : Option ParseState :=
  match st.pending with
  | some flag =>
      match applyFlagValue parseFloat st.args flag t with
      | some a => some { args := a, pending := none }
      | none => none
  | none =>
      if t = "--small_subset" then
        some { args := { st.args with small_subset := .pyBool true },
               pending := none }
      else if t = "--experiment" ∨ t = "--num_epochs" ∨ t = "--lr" ∨
          t = "--batch_size" ∨ t = "--device" ∨ t = "--model" then
        some { args := st.args, pending := some t }
      else none

/-- Process an argument vector token by token. -/
def parseTokens (parseFloat : String → Option Rat) :
    ParseState → List String → Option ParseState
  | st, [] => some st
  | st, t :: rest =>
      match parseStep parseFloat st t with
      | some st2 => parseTokens parseFloat st2 rest
      | none => none

/-- `args = parser.parse_args()` on a given argument vector: start from
the declared defaults, process every token, and fail if a typed option is
still waiting for its value at the end. -/
def parseArgs (parseFloat : String → Option Rat) (argv : List String) :
    Option Args :=
  match parseTokens parseFloat { args := defaultArgs, pending := none } argv with
  | some { args := a, pending := none } => some a
  | _ => none

/-- The hardcoded sweep list `learning_rates = [1e-4, 5e-4, 1e-3]`. -/
def learning_rates : List Rat := [1 / 10000, 5 / 10000, 1 / 1000]

/-- The hardcoded sweep list `training_epoch = [5, 7, 9]`. -/
def training_epoch : List Nat := [5, 7, 9]

/-- The hardcoded sweep list `model_list = ["bert-base-uncased"]`. -/
def model_list : List String := ["bert-base-uncased"]

/-- The iteration order of the triple nested sweep loop
(`for model in model_list: for lr in learning_rates: for epoch in
training_epoch:`): epoch count varies innermost. -/
def sweepRuns : List (String × Rat × Nat) :=
  model_list.flatMap fun m =>
    learning_rates.flatMap fun lr =>
      training_epoch.map fun ep => (m, lr, ep)

/-! ## Dataset and tokenisation -/

/-- One BoolQ example: a passage, a yes/no question, and a boolean answer. -/
structure Example where
  passage : String
  question : String
  answer : Bool
deriving DecidableEq, Repr

/-- The dataset dictionary returned by `load_dataset("boolq")` after
`dataset.shuffle()`: a `train` split and a `validation` split.  The shuffle
is external randomness, so theorems quantify over an arbitrary
already-shuffled `BoolQDict`. -/
structure BoolQDict where
  train : List Example
  validation : List Example
deriving DecidableEq, Repr

/-- The dictionary of tensors returned by `tokenizer.encode_plus` (with
`return_tensors="pt"`, `return_attention_mask=True`,
`return_token_type_ids=False`): a token-id sequence and an attention
mask.  Token ids are abstract naturals. -/
structure Encoding where
  input_ids : List Nat
  attention_mask : List Nat
deriving DecidableEq, Repr

/-- An abstract tokenizer: `encode_plus` restricted to the two arguments
the script varies (the input text and `max_length`); the remaining keyword
arguments (`add_special_tokens=True`, `padding="max_length"`,
`truncation=True`, ...) are fixed in the source and folded into the
function. -/
def Tokenizer : Type := String → Nat → Encoding

/-- The `BoolQADataset` torch dataset: parallel lists of passages,
questions and answers, a tokenizer and a maximum length. -/
structure BoolQADataset where
  passages : List String
  questions : List String
  answers : List Bool
  tokenizer : Tokenizer
  max_len : Nat

/-- `BoolQADataset.__len__`: `len(self.answers)`. -/
def BoolQADataset.len (ds : BoolQADataset) : Nat := ds.answers.length

/-- The dictionary returned by `BoolQADataset.__getitem__`: the two tensors
of `encode_plus` (index `[0]` of the singleton batch) plus the label
`torch.tensor(answer, dtype=torch.long)` — a Python bool cast to the
integer 0 or 1. -/
structure ItemDict where
  input_ids : List Nat
  attention_mask : List Nat
  labels : Nat
deriving DecidableEq, Repr

/-- `BoolQADataset.__getitem__`: reads `passages[index]`, `questions[index]`
and `answers[index]` (an out-of-range index raises `IndexError`, modelled
as `none`), builds `input_encoding = question + " [SEP] " + str(passage)`
— question first — tokenises it with `max_length=self.max_len`, and pairs
the encoding with the label. -/
def BoolQADataset.getitem (ds : BoolQADataset) (index : Nat) : Option ItemDict :=
  match ds.passages[index]?, ds.questions[index]?, ds.answers[index]? with
  | some passage, some question, some answer =>
      let input_encoding := question ++ " [SEP] " ++ passage
      let encoded_review := ds.tokenizer input_encoding ds.max_len
      some { input_ids := encoded_review.input_ids
             attention_mask := encoded_review.attention_mask
             labels := if answer then 1 else 0 }
  | _, _, _ => none

/-! ## Slicing and `pre_process` -/

/-- The slicing step of `pre_process`: with a truthy `small_subset` all
three splits are `dataset['train'][:10]`; otherwise train is
`dataset['train'][:8000]`, dev is `dataset['validation']` and test is
`dataset['train'][8000:]`.  Returns (train, dev, test). -/
def sliceBoolq (dataset : BoolQDict) (small_subset : PyVal) :
    List Example × List Example × List Example :=
  if small_subset.truthy then
    (dataset.train.take 10, dataset.train.take 10, dataset.train.take 10)
  else
    (dataset.train.take 8000, dataset.validation, dataset.train.drop 8000)

/-- Building one `BoolQADataset` from a slice, as `pre_process` does:
`passages=list(subset['passage'])`, `questions=list(subset['question'])`,
`answers=list(subset['answer'])`. -/
def mkBoolQADataset (subset : List Example) (tok : Tokenizer) (max_len : Nat) :
    BoolQADataset :=
  { passages := subset.map Example.passage
    questions := subset.map Example.question
    answers := subset.map Example.answer
    tokenizer := tok
    max_len := max_len }

/-- The three `BoolQADataset`s constructed by `pre_process` from the
shuffled dataset, all with `max_len = 128`. -/
def pre_process_datasets (mytokenizer : Tokenizer) (dataset : BoolQDict)
    (small_subset : PyVal) : BoolQADataset × BoolQADataset × BoolQADataset :=
  let sliced := sliceBoolq dataset small_subset
  let max_len := 128
  (mkBoolQADataset sliced.1 mytokenizer max_len,
   mkBoolQADataset sliced.2.1 mytokenizer max_len,
   mkBoolQADataset sliced.2.2 mytokenizer max_len)

/-! ## Batches and data loaders -/

/-- One collated `DataLoader` batch: the stacked `input_ids`,
`attention_mask` and `labels` of its items. -/
structure Batch where
  input_ids : List (List Nat)
  attention_mask : List (List Nat)
  labels : List Nat
deriving DecidableEq, Repr

/-- Split a list into consecutive chunks of size `n` (the final chunk may
be shorter), as a torch `DataLoader` without `drop_last` does. -/
def chunkList {α : Type} (n : Nat) (l : List α) : List (List α) :=
  match l, n with
  | [], _ => []
  | _ :: _, 0 => []
  | x :: xs, m + 1 => ((x :: xs).take (m + 1)) :: chunkList (m + 1) (xs.drop m)
termination_by l.length
decreasing_by
  simp only [List.length_cons, List.length_drop]
  omega

/-- Collate a list of item dictionaries into one batch. -/
def collate (items : List ItemDict) : Batch :=
  { input_ids := items.map ItemDict.input_ids
    attention_mask := items.map ItemDict.attention_mask
    labels := items.map ItemDict.labels }

/-- `DataLoader(dataset, batch_size=batch_size)`: iterate the dataset by
index (dropping the impossible out-of-range failures) and collate
consecutive chunks of `batch_size` items. -/
def dataLoader (ds : BoolQADataset) (batch_size : Nat) : List Batch :=
  (chunkList batch_size ((List.range ds.len).filterMap ds.getitem)).map collate

/-- The 4-tuple returned by `pre_process`. -/
structure PreOut (σ : Type) where
  pretrained_model : σ
  train_dataloader : List Batch
  validation_dataloader : List Batch
  test_dataloader : List Batch

/-- `pre_process(model_name, batch_size, device, small_subset)`.
`loadModel` abstracts `AutoModelForSequenceClassification.from_pretrained`
(its second argument is the `num_labels` keyword); `tokenizerOf` abstracts
`AutoTokenizer.from_pretrained`; `dataset` is the already-downloaded,
already-shuffled BoolQ dataset; moving the model to the device is a no-op
on the abstract model state. -/
def pre_process {σ : Type} (loadModel : String → Nat → σ)
    (tokenizerOf : String → Tokenizer) (dataset : BoolQDict)
    (model_name : String) (batch_size : Nat) (device : String)
    (small_subset : PyVal) : PreOut σ :=
  let mytokenizer := tokenizerOf model_name
  let ds3 := pre_process_datasets mytokenizer dataset small_subset
  let pretrained_model := loadModel model_name 2
  { pretrained_model := pretrained_model
    train_dataloader := dataLoader ds3.1 batch_size
    validation_dataloader := dataLoader ds3.2.1 batch_size
    test_dataloader := dataLoader ds3.2.2 batch_size }

/-! ## Metrics and `evaluate_model` -/

/-- The dictionary returned by `accuracy.compute()`. -/
structure AccDict where
  accuracy : Rat
deriving DecidableEq, Repr

/-- The state of an `evaluate.load('accuracy')` metric: the predictions
and references accumulated by `add_batch`. -/
structure Metric where
  preds : List Nat
  refs : List Nat
deriving DecidableEq, Repr

/-- A freshly loaded accuracy metric. -/
def Metric.empty : Metric := { preds := [], refs := [] }

/-- `metric.add_batch(predictions=..., references=...)`. -/
def Metric.addBatch (m : Metric) (predictions references : List Nat) : Metric :=
  { preds := m.preds ++ predictions, refs := m.refs ++ references }

/-- `metric.compute()`: the fraction of positions where prediction and
reference agree. -/
def Metric.compute (m : Metric) : AccDict :=
  { accuracy := ((m.preds.zip m.refs).countP fun pr => pr.1 == pr.2 : Nat) /
      (m.preds.length : Rat) }

/-- Index of the first maximum, scanning with current best index/value:
the helper for `torch.argmax` on one row of logits. -/
def argmaxFrom (bestIdx : Nat) (best : Rat) (i : Nat) : List Rat → Nat
  | [] => bestIdx
  | x :: xs =>
      if best < x then argmaxFrom i x (i + 1) xs
      else argmaxFrom bestIdx best (i + 1) xs

/-- `torch.argmax(row)` for one row of logits (dimension 1 of the logits
tensor); the empty row is impossible in the script. -/
def argmaxIdx : List Rat → Nat
  | [] => 0
  | x :: xs => argmaxFrom 0 x 1 xs

/-- The ML framework operations `train` and `evaluate_model` call on the
abstract model state `σ`: the forward pass producing one row of logits
per example of a batch, and the combined parameter update of
`loss.backward(); optimizer.step(); lr_scheduler.step();
optimizer.zero_grad()` on a batch. -/
structure TorchOps (σ : Type) where
  forwardLogits : σ → Batch → List (List Rat)
  trainStep : σ → Batch → σ

/-- The metric state accumulated by `evaluate_model`'s loop: for each
batch, `predictions = torch.argmax(output.logits, dim=1)` and
`dev_accuracy.add_batch(predictions=predictions,
references=batch['labels'])`. -/
def evalMetric {σ : Type} (ops : TorchOps σ) (model : σ)
    (dataloader : List Batch) : Metric :=
  dataloader.foldl
    (fun m batch =>
      m.addBatch ((ops.forwardLogits model batch).map argmaxIdx) batch.labels)
    Metric.empty

/-- `evaluate_model(model, dataloader, device)`: run the batch loop and
return `dev_accuracy.compute()`. -/
def evaluate_model {σ : Type} (ops : TorchOps σ) (model : σ)
    (dataloader : List Batch) : AccDict :=
  (evalMetric ops model dataloader).compute

/-! ## The training loop -/

/-- The framework calls the body of the inner training loop performs, in
source order, for each batch. -/
inductive TrainEvent where
  | forward
  | lossCompute
  | backward
  | optimizerStep
  | schedulerStep
  | zeroGrad
  | metricAdd
  | epochEval
deriving DecidableEq, Repr

/-- The per-batch event sequence of the inner training loop. -/
def perBatchEvents : List TrainEvent :=
  [.forward, .lossCompute, .backward, .optimizerStep, .schedulerStep,
   .zeroGrad, .metricAdd]

/-- One iteration of `for i, batch in enumerate(train_dataloader)`:
forward pass (`output[1]` is the logits), cross-entropy loss on the
logits and labels, backward, optimiser step, scheduler step, zero-grad —
folded into `ops.trainStep` — then `predictions = torch.argmax(logits,
dim=1)` and `train_accuracy.add_batch(...)`.  The state is (model
parameters, epoch metric, event trace). -/
def trainBatchStep {σ : Type} (ops : TorchOps σ)
    (st : σ × Metric × List TrainEvent) (batch : Batch) :
    σ × Metric × List TrainEvent :=
  let logits := ops.forwardLogits st.1 batch
  let model := ops.trainStep st.1 batch
  let predictions := logits.map argmaxIdx
  (model, st.2.1.addBatch predictions batch.labels, st.2.2 ++ perBatchEvents)

/-- One epoch's inner loop: fold `trainBatchStep` over the training
dataloader starting from a freshly loaded `train_accuracy` metric. -/
def epochFold {σ : Type} (ops : TorchOps σ) (train_dataloader : List Batch)
    (model : σ) : σ × Metric × List TrainEvent :=
  train_dataloader.foldl (trainBatchStep ops) (model, Metric.empty, [])

/-- The Python-visible state of `train` across epochs: the model
parameters, the `train_acc` and `val_acc` lists, the local variables
`acc`/`val` of the epoch body (unbound before the first epoch, hence
`Option`), and the accumulated event trace. -/
structure TrainState (σ : Type) where
  model : σ
  train_acc : List AccDict
  val_acc : List AccDict
  accval : Option (List Rat × List Rat)
  trace : List TrainEvent

/-- One iteration of `for epoch in range(num_epochs)`: run the inner batch
loop, append `train_accuracy.compute()` to `train_acc`, evaluate on the
validation dataloader and append to `val_acc`, then rebind
`acc = [i['accuracy'] for i in train_acc]` and
`val = [i['accuracy'] for i in val_acc]`. -/
def trainEpoch {σ : Type} (ops : TorchOps σ)
    (train_dataloader validation_dataloader : List Batch)
    (st : TrainState σ) (_epoch : Nat) : TrainState σ :=
  let folded := epochFold ops train_dataloader st.model
  let avg_acc := folded.2.1.compute
  let train_acc := st.train_acc ++ [avg_acc]
  let val_accuracy := evaluate_model ops folded.1 validation_dataloader
  let val_acc := st.val_acc ++ [val_accuracy]
  { model := folded.1
    train_acc := train_acc
    val_acc := val_acc
    accval := some (train_acc.map AccDict.accuracy, val_acc.map AccDict.accuracy)
    trace := st.trace ++ folded.2.2 ++ [.epochEval] }

/-- The epoch loop of `train`, starting from the given model parameters
with empty accumulator lists and `acc`/`val` unbound. -/
def trainRun {σ : Type} (ops : TorchOps σ) (mymodel : σ) (num_epochs : Nat)
    (train_dataloader validation_dataloader : List Batch) : TrainState σ :=
  (List.range num_epochs).foldl
    (trainEpoch ops train_dataloader validation_dataloader)
    { model := mymodel, train_acc := [], val_acc := [], accval := none,
      trace := [] }

/-- A Python exception, as far as the script can raise one in the logic
modelled here. -/
inductive PyErr where
  | nameError
  | assertionError
  | systemExit
deriving DecidableEq, Repr

/-- `np.mean` of a list of rationals. -/
def npMean (xs : List Rat) : Rat := (xs.foldl (· + ·) 0) / (xs.length : Rat)

/-- `train(mymodel, num_epochs, train_dataloader, validation_dataloader,
test_dataloader, device, lr)`: run the epoch loop, then return
`np.mean(acc), np.mean(val), evaluate_model(mymodel, test_dataloader,
device)`.  If the epoch loop never ran, `acc` and `val` were never bound
and the return statement raises `NameError`.  The learning rate `lr` and
the scheduler configuration only parameterise the abstract optimiser, and
`device` only directs tensor placement; neither influences the control
flow modelled here. -/
def train {σ : Type} (ops : TorchOps σ) (mymodel : σ) (num_epochs : Nat)
    (train_dataloader validation_dataloader test_dataloader : List Batch)
    (_device : String) (_lr : Rat) :
    Except PyErr (Rat × Rat × AccDict) :=
  let st := trainRun ops mymodel num_epochs train_dataloader
    validation_dataloader
  match st.accval with
  | none => .error .nameError
  | some accval =>
      .ok (npMean accval.1, npMean accval.2,
        evaluate_model ops st.model test_dataloader)

/-! ## The entry point: sweep, `valrank`, plot, save -/

/-- The arguments of one `pre_process` call made by the sweep. -/
structure PreProcessCall where
  model_name : String
  batch_size : Nat
  device : String
  small_subset : PyVal
deriving DecidableEq, Repr

/-- The hyperparameters of one `train` call made by the sweep (the
dataloaders and model come from the matching `pre_process` call). -/
structure TrainCall where
  num_epochs : Nat
  lr : Rat
deriving DecidableEq, Repr

/-- One `valrank` entry `[valacc, lr, epoch, test_accuracy]`, fields in
list order. -/
structure ValRankEntry where
  valacc : Rat
  lr : Rat
  epoch : Nat
  test_accuracy : AccDict
deriving DecidableEq, Repr

/-- What one sweep iteration contributes: the `pre_process` call it makes,
the `train` call it makes, and the entry it appends to `valrank`. -/
structure SweepItemOut where
  ppCall : PreProcessCall
  trainCall : TrainCall
  entry : ValRankEntry
deriving DecidableEq, Repr

/-- One iteration of the sweep body, for run index `i` (each iteration
calls `load_dataset` and `shuffle` afresh, so the shuffled dataset is an
oracle `datasetAt` indexed by the run number): call
`pre_process(model, 64, "cuda", 'store_true')`, destructure its result,
call `train(pretrained_model, epoch, ..., "cuda", lr)`, and append
`[valacc, lr, epoch, test_accuracy]` to `valrank`.  An exception from
`train` propagates. -/
def sweepItem {σ : Type} (loadModel : String → Nat → σ)
    (tokenizerOf : String → Tokenizer) (ops : TorchOps σ)
    (datasetAt : Nat → BoolQDict) (i : Nat) (run : String × Rat × Nat) :
    Except PyErr SweepItemOut :=
  let m := run.1
  let lr := run.2.1
  let epoch := run.2.2
  let pp := pre_process loadModel tokenizerOf (datasetAt i) m 64 "cuda"
    (.pyStr "store_true")
  match train ops pp.pretrained_model epoch pp.train_dataloader
      pp.validation_dataloader pp.test_dataloader "cuda" lr with
  | .error e => .error e
  | .ok result =>
      .ok { ppCall := { model_name := m, batch_size := 64, device := "cuda",
                        small_subset := .pyStr "store_true" }
            trainCall := { num_epochs := epoch, lr := lr }
            entry := { valacc := result.2.1, lr := lr, epoch := epoch,
                       test_accuracy := result.2.2 } }

/-- Run the loop body over the runs in order, stopping at the first
exception (an uncaught exception aborts the whole sweep). -/
def sweepLoop {α β : Type} (f : Nat → α → Except PyErr β) :
    Nat → List α → Except PyErr (List β)
  | _, [] => .ok []
  | i, x :: xs =>
      match f i x with
      | .error e => .error e
      | .ok y =>
          match sweepLoop f (i + 1) xs with
          | .error e => .error e
          | .ok ys => .ok (y :: ys)

/-- One bar series drawn by `plt.bar`. -/
structure BarSeries where
  positions : List Rat
  heights : List Rat
  label : String
deriving DecidableEq, Repr

/-- The figure assembled before `plt.savefig`. -/
structure Figure where
  series : List BarSeries
  xlabel : String
  ylabel : String
deriving DecidableEq, Repr

/-- `np.arange(n)` as rationals. -/
def arangeRat (n : Nat) : List Rat := (List.range n).map fun i => (i : Rat)

/-- The plotting block after the sweep: `barWidth = 0.25`,
`br1 = np.arange(len(IT))`, `br2 = [x + barWidth for x in br1]`, a red
`valid_accuracy` bar series at `br1` and a green `test_accuracy` bar
series at `br2`, with the hardcoded axis labels. -/
def mkFigure (IT ECE : List Rat) : Figure :=
  let barWidth : Rat := 1 / 4
  let br1 := arangeRat IT.length
  let br2 := br1.map fun x => x + barWidth
  { series := [{ positions := br1, heights := IT, label := "valid_accuracy" },
               { positions := br2, heights := ECE, label := "test_accuracy" }]
    xlabel := "Bert-base_uncased"
    ylabel := "Accuracy" }

/-- Everything the entry point computes after parsing: the `pre_process`
and `train` calls the sweep made, the final `valrank`, and the files the
program writes (each a path paired with the figure saved there). -/
structure MainOut where
  calls : List (PreProcessCall × TrainCall)
  valrank : List ValRankEntry
  files : List (String × Figure)
deriving DecidableEq, Repr

/-- The body of `if __name__ == "__main__"` after the assert: the triple
nested sweep over `model_list`, `learning_rates` and `training_epoch`,
then `valid_accuracy = np.array(valrank)[:,0]`, `test_accuracy_list =
[i['accuracy'] for i in np.array(valrank)[:,3]]`, the bar figure, and the
single `plt.savefig("bert-base-uncased.png")`.  The parsed `args` are in
scope but the sweep reads none of them. -/
def runMain {σ : Type} (loadModel : String → Nat → σ)
    (tokenizerOf : String → Tokenizer) (ops : TorchOps σ)
    (datasetAt : Nat → BoolQDict) (_args : Args) : Except PyErr MainOut :=
  match sweepLoop (sweepItem loadModel tokenizerOf ops datasetAt) 0 sweepRuns with
  | .error e => .error e
  | .ok items =>
      let valrank := items.map SweepItemOut.entry
      let valid_accuracy := valrank.map ValRankEntry.valacc
      let test_accuracy_list := valrank.map fun e => e.test_accuracy.accuracy
      let fig := mkFigure valid_accuracy test_accuracy_list
      .ok { calls := items.map fun it => (it.ppCall, it.trainCall)
            valrank := valrank
            files := [("bert-base-uncased.png", fig)] }

/-- The whole entry point: parse the argument vector (`argparse` exits the
process on a malformed command line, modelled as `SystemExit`), run
`assert type(args.small_subset) == bool` (its failure raises
`AssertionError`), then run the sweep and plotting. -/
def mainEntry {σ : Type} (loadModel : String → Nat → σ)
    (tokenizerOf : String → Tokenizer) (ops : TorchOps σ)
    (datasetAt : Nat → BoolQDict) (parseFloat : String → Option Rat)
    (argv : List String) : Except PyErr MainOut :=
  match parseArgs parseFloat argv with
  | none => .error .systemExit
  | some args =>
      if args.small_subset.isBool then
        runMain loadModel tokenizerOf ops datasetAt args
      else
        .error .assertionError

/-! ## Derived characterisations

Values obtained by unfolding the embedding above on the success path; used
to state closed-form results about `train` and `runMain`. -/

/-- The triple `train` returns when its epoch loop ran at least once,
read off from the final `TrainState`. -/
def trainResult {σ : Type} (ops : TorchOps σ) (mymodel : σ) (num_epochs : Nat)
    (train_dataloader validation_dataloader test_dataloader : List Batch) :
    Rat × Rat × AccDict :=
  let st := trainRun ops mymodel num_epochs train_dataloader
    validation_dataloader
  (npMean (st.train_acc.map AccDict.accuracy),
   npMean (st.val_acc.map AccDict.accuracy),
   evaluate_model ops st.model test_dataloader)

/-- Map a function over a list together with a running index. -/
def mapWithIndexFrom {α β : Type} (g : Nat → α → β) : Nat → List α → List β
  | _, [] => []
  | i, x :: xs => g i x :: mapWithIndexFrom g (i + 1) xs

/-- The value a successful sweep iteration produces, read off from
`sweepItem` on the success path. -/
def sweepItemVal {σ : Type} (loadModel : String → Nat → σ)
    (tokenizerOf : String → Tokenizer) (ops : TorchOps σ)
    (datasetAt : Nat → BoolQDict) (i : Nat) (run : String × Rat × Nat) :
    SweepItemOut :=
  let pp := pre_process loadModel tokenizerOf (datasetAt i) run.1 64 "cuda"
    (.pyStr "store_true")
  let r := trainResult ops pp.pretrained_model run.2.2 pp.train_dataloader
    pp.validation_dataloader pp.test_dataloader
  { ppCall := { model_name := run.1, batch_size := 64, device := "cuda",
                small_subset := .pyStr "store_true" }
    trainCall := { num_epochs := run.2.2, lr := run.2.1 }
    entry := { valacc := r.2.1, lr := run.2.1, epoch := run.2.2,
               test_accuracy := r.2.2 } }

/-- The `MainOut` that `runMain` produces (the sweep's epoch counts are
all positive, so no iteration raises). -/
def mainOutVal {σ : Type} (loadModel : String → Nat → σ)
    (tokenizerOf : String → Tokenizer) (ops : TorchOps σ)
    (datasetAt : Nat → BoolQDict) : MainOut :=
  let items := mapWithIndexFrom (sweepItemVal loadModel tokenizerOf ops datasetAt)
    0 sweepRuns
  let valrank := items.map SweepItemOut.entry
  { calls := items.map fun it => (it.ppCall, it.trainCall)
    valrank := valrank
    files := [("bert-base-uncased.png",
      mkFigure (valrank.map ValRankEntry.valacc)
        (valrank.map fun e => e.test_accuracy.accuracy))] }

/-- The one `pre_process` argument tuple the sweep ever passes. -/
def bertPreProcessCall : PreProcessCall :=
  { model_name := "bert-base-uncased", batch_size := 64, device := "cuda",
    small_subset := .pyStr "store_true" }

/-! ## Concrete oracle instantiations

Trivial instantiations of the abstract framework oracles, used to
evaluate the theorems below at concrete inputs. -/

/-- A trivial model loader over the unit model-state type. -/
def wLoadModel : String → Nat → Unit := fun _ _ => ()

/-- A tokenizer that pads every input to the requested length. -/
def wTokenizerOf : String → Tokenizer :=
  fun _ => fun _ n =>
    { input_ids := List.replicate n 0, attention_mask := List.replicate n 0 }

/-- Trivial framework operations over the unit model-state type. -/
def wOps : TorchOps Unit :=
  { forwardLogits := fun _ _ => [], trainStep := fun _ _ => () }

/-- An empty shuffled dataset for every sweep iteration. -/
def wDatasetAt : Nat → BoolQDict := fun _ => { train := [], validation := [] }

/-! ## Lemmas about the training loop -/

theorem trainRun_succ {σ : Type} (ops : TorchOps σ) (m : σ) (k : Nat)
    (tdl vdl : List Batch) :
    trainRun ops m (k + 1) tdl vdl =
      trainEpoch ops tdl vdl (trainRun ops m k tdl vdl) k := by
  unfold trainRun
  rw [List.range_succ, List.foldl_append]
  rfl

theorem trainRun_accval {σ : Type} (ops : TorchOps σ) (m : σ) (n : Nat)
    (tdl vdl : List Batch) (h : 1 ≤ n) :
    (trainRun ops m n tdl vdl).accval =
      some ((trainRun ops m n tdl vdl).train_acc.map AccDict.accuracy,
        (trainRun ops m n tdl vdl).val_acc.map AccDict.accuracy) := by
  obtain ⟨k, rfl⟩ : ∃ k, n = k + 1 := ⟨n - 1, by omega⟩
  rw [trainRun_succ]
  rfl

theorem train_eq_ok {σ : Type} (ops : TorchOps σ) (m : σ) (n : Nat)
    (tdl vdl sdl : List Batch) (dev : String) (lr : Rat) (h : 1 ≤ n) :
    train ops m n tdl vdl sdl dev lr = .ok (trainResult ops m n tdl vdl sdl) := by
  have h2 := trainRun_accval ops m n tdl vdl h
  simp [train, trainResult, h2]

theorem foldl_trainBatchStep_trace {σ : Type} (ops : TorchOps σ) :
    ∀ (l : List Batch) (st : σ × Metric × List TrainEvent),
      (l.foldl (trainBatchStep ops) st).2.2 =
        st.2.2 ++ l.flatMap fun _ => perBatchEvents := by
  intro l
  induction l with
  | nil => intro st; simp
  | cons b bs ih =>
      intro st
      simp only [List.foldl_cons, ih, List.flatMap_cons]
      simp [trainBatchStep, List.append_assoc]

theorem trainRun_trace {σ : Type} (ops : TorchOps σ) (m : σ) (n : Nat)
    (tdl vdl : List Batch) :
    (trainRun ops m n tdl vdl).trace =
      (List.range n).flatMap fun _ =>
        (tdl.flatMap fun _ => perBatchEvents) ++ [TrainEvent.epochEval] := by
  induction n with
  | zero => rfl
  | succ k ih =>
      rw [trainRun_succ, List.range_succ, List.flatMap_append]
      simp only [trainEpoch, epochFold, foldl_trainBatchStep_trace, ih]
      simp [List.append_assoc]

/-! ## Lemmas about the sweep -/

theorem sweepRuns_eq :
    sweepRuns =
      [("bert-base-uncased", 1 / 10000, 5), ("bert-base-uncased", 1 / 10000, 7),
       ("bert-base-uncased", 1 / 10000, 9), ("bert-base-uncased", 5 / 10000, 5),
       ("bert-base-uncased", 5 / 10000, 7), ("bert-base-uncased", 5 / 10000, 9),
       ("bert-base-uncased", 1 / 1000, 5), ("bert-base-uncased", 1 / 1000, 7),
       ("bert-base-uncased", 1 / 1000, 9)] := by
  rfl

theorem sweepItem_eq {σ : Type} (loadModel : String → Nat → σ)
    (tokenizerOf : String → Tokenizer) (ops : TorchOps σ)
    (datasetAt : Nat → BoolQDict) (i : Nat) (run : String × Rat × Nat)
    (h : 1 ≤ run.2.2) :
    sweepItem loadModel tokenizerOf ops datasetAt i run =
      .ok (sweepItemVal loadModel tokenizerOf ops datasetAt i run) := by
  have ht := train_eq_ok ops
    (pre_process loadModel tokenizerOf (datasetAt i) run.1 64 "cuda"
      (.pyStr "store_true")).pretrained_model run.2.2
    (pre_process loadModel tokenizerOf (datasetAt i) run.1 64 "cuda"
      (.pyStr "store_true")).train_dataloader
    (pre_process loadModel tokenizerOf (datasetAt i) run.1 64 "cuda"
      (.pyStr "store_true")).validation_dataloader
    (pre_process loadModel tokenizerOf (datasetAt i) run.1 64 "cuda"
      (.pyStr "store_true")).test_dataloader "cuda" run.2.1 h
  simp [sweepItem, sweepItemVal, ht]

theorem sweepLoop_ok_of {α β : Type} (f : Nat → α → Except PyErr β)
    (g : Nat → α → β) :
    ∀ (l : List α) (i : Nat), (∀ j x, x ∈ l → f j x = .ok (g j x)) →
      sweepLoop f i l = .ok (mapWithIndexFrom g i l) := by
  intro l
  induction l with
  | nil => intro i _; rfl
  | cons x xs ih =>
      intro i h
      have hx : f i x = .ok (g i x) := h i x (List.mem_cons_self x xs)
      have hrest : sweepLoop f (i + 1) xs = .ok (mapWithIndexFrom g (i + 1) xs) :=
        ih (i + 1) fun j y hy => h j y (List.mem_cons_of_mem x hy)
      simp [sweepLoop, hx, hrest, mapWithIndexFrom]

theorem runMain_eq {σ : Type} (loadModel : String → Nat → σ)
    (tokenizerOf : String → Tokenizer) (ops : TorchOps σ)
    (datasetAt : Nat → BoolQDict) (args : Args) :
    runMain loadModel tokenizerOf ops datasetAt args =
      .ok (mainOutVal loadModel tokenizerOf ops datasetAt) := by
  have hloop : sweepLoop (sweepItem loadModel tokenizerOf ops datasetAt) 0
      sweepRuns =
      .ok (mapWithIndexFrom (sweepItemVal loadModel tokenizerOf ops datasetAt)
        0 sweepRuns) := by
    apply sweepLoop_ok_of
    intro j x hx
    apply sweepItem_eq
    rw [sweepRuns_eq] at hx
    simp only [List.mem_cons, List.not_mem_nil, or_false] at hx
    rcases hx with rfl | rfl | rfl | rfl | rfl | rfl | rfl | rfl | rfl <;> norm_num
  simp [runMain, hloop, mainOutVal]

theorem mapWithIndexFrom_length {α β : Type} (g : Nat → α → β) :
    ∀ (l : List α) (i : Nat), (mapWithIndexFrom g i l).length = l.length := by
  intro l
  induction l with
  | nil => intro i; rfl
  | cons x xs ih => intro i; simp [mapWithIndexFrom, ih]

theorem mainOutVal_calls {σ : Type} (loadModel : String → Nat → σ)
    (tokenizerOf : String → Tokenizer) (ops : TorchOps σ)
    (datasetAt : Nat → BoolQDict) :
    (mainOutVal loadModel tokenizerOf ops datasetAt).calls =
      [(bertPreProcessCall, ⟨5, 1 / 10000⟩), (bertPreProcessCall, ⟨7, 1 / 10000⟩),
       (bertPreProcessCall, ⟨9, 1 / 10000⟩), (bertPreProcessCall, ⟨5, 5 / 10000⟩),
       (bertPreProcessCall, ⟨7, 5 / 10000⟩), (bertPreProcessCall, ⟨9, 5 / 10000⟩),
       (bertPreProcessCall, ⟨5, 1 / 1000⟩), (bertPreProcessCall, ⟨7, 1 / 1000⟩),
       (bertPreProcessCall, ⟨9, 1 / 1000⟩)] := by
  rfl

/-! ## Lemmas about the parser -/

theorem applyFlagValue_small_subset (pf : String → Option Rat) (a : Args)
    (flag v : String) (a2 : Args) (h : applyFlagValue pf a flag v = some a2) :
    a2.small_subset = a.small_subset := by
  unfold applyFlagValue at h
  split_ifs at h
  all_goals first
    | (injection h with h; subst h; rfl)
    | (rcases Option.map_eq_some'.mp h with ⟨x, _, rfl⟩; rfl)

theorem parseStep_small_subset (pf : String → Option Rat) (st : ParseState)
    (t : String) (st2 : ParseState) (h : parseStep pf st t = some st2)
    (hb : st.args.small_subset.isBool = true) :
    st2.args.small_subset.isBool = true := by
  obtain ⟨args, pending⟩ := st
  cases pending with
  | some flag =>
      simp only [parseStep] at h
      cases happ : applyFlagValue pf args flag t with
      | some a =>
          rw [happ] at h
          injection h with h
          subst h
          show a.small_subset.isBool = true
          rw [applyFlagValue_small_subset pf args flag t a happ]
          exact hb
      | none => rw [happ] at h; exact Option.noConfusion h
  | none =>
      simp only [parseStep] at h
      split_ifs at h
      all_goals first
        | (injection h with h; subst h; rfl)
        | (injection h with h; subst h; exact hb)

theorem parseTokens_small_subset (pf : String → Option Rat) :
    ∀ (l : List String) (st st2 : ParseState),
      parseTokens pf st l = some st2 → st.args.small_subset.isBool = true →
      st2.args.small_subset.isBool = true := by
  intro l
  induction l with
  | nil =>
      intro st st2 h hb
      injection h with h
      subst h
      exact hb
  | cons t rest ih =>
      intro st st2 h hb
      simp only [parseTokens] at h
      cases hstep : parseStep pf st t with
      | some st1 =>
          rw [hstep] at h
          exact ih st1 st2 h (parseStep_small_subset pf st t st1 hstep hb)
      | none => rw [hstep] at h; exact Option.noConfusion h

theorem parseArgs_small_subset_isBool (pf : String → Option Rat)
    (argv : List String) (a : Args) (h : parseArgs pf argv = some a) :
    a.small_subset.isBool = true := by
  unfold parseArgs at h
  cases htok : parseTokens pf { args := defaultArgs, pending := none } argv with
  | none => rw [htok] at h; exact Option.noConfusion h
  | some st =>
      rw [htok] at h
      rcases st with ⟨a2, _ | flag⟩
      · injection h with h
        subst h
        exact parseTokens_small_subset pf argv _ _ htok rfl
      · exact Option.noConfusion h

/-! ## Claim theorems -/

/-- C6: error handling is a single input-type assertion on
`small_subset`: `assert type(args.small_subset) == bool` succeeds for
every command line the parser accepts (`action='store_true'` always binds
a bool), so the entry point never raises `AssertionError`; all other
failures propagate uncaught. -/
theorem claim_C6_single_assert (parseFloat : String → Option Rat)
    (argv : List String) (a : Args) (h : parseArgs parseFloat argv = some a) :
    a.small_subset.isBool = true ∧
    ∀ (σ : Type) (loadModel : String → Nat → σ)
      (tokenizerOf : String → Tokenizer) (ops : TorchOps σ)
      (datasetAt : Nat → BoolQDict) (argv2 : List String),
      mainEntry loadModel tokenizerOf ops datasetAt parseFloat argv2 ≠
        .error .assertionError := by
  refine ⟨parseArgs_small_subset_isBool parseFloat argv a h, ?_⟩
  intro σ loadModel tokenizerOf ops datasetAt argv2
  unfold mainEntry
  cases hp : parseArgs parseFloat argv2 with
  | none => simp
  | some a2 =>
      have hb2 := parseArgs_small_subset_isBool parseFloat argv2 a2 hp
      simp [hb2, runMain_eq]

/-- C6 witness: the command line `["--small_subset"]` is accepted, its
parse binds `small_subset` to a Python bool, and over the trivial oracles
the entry point does not raise `AssertionError` on it. -/
theorem claim_C6_single_assert_witness :
    ({ defaultArgs with small_subset := PyVal.pyBool true } :
      Args).small_subset.isBool = true ∧
    mainEntry wLoadModel wTokenizerOf wOps wDatasetAt (fun _ => none)
      ["--small_subset"] ≠ .error .assertionError := by
  have h := claim_C6_single_assert (fun _ => none) ["--small_subset"]
    { defaultArgs with small_subset := PyVal.pyBool true } rfl
  exact ⟨h.1, h.2 Unit wLoadModel wTokenizerOf wOps wDatasetAt ["--small_subset"]⟩

/-- C1: the CLI flags are parsed but overridden by hardcoded sweep values:
for any two argument vectors accepted by the parser, the entry point's
sweep behaves identically — it passes the same hyperparameters to
`pre_process` and `train` (the model from `model_list`, batch size 64,
device `"cuda"`, `small_subset` the string `'store_true'`, learning rates
and epoch counts from the hardcoded lists), so the sweep's behaviour does
not depend on the parsed arguments. -/
theorem claim_C1_sweep_ignores_cli {σ : Type} (loadModel : String → Nat → σ)
    (tokenizerOf : String → Tokenizer) (ops : TorchOps σ)
    (datasetAt : Nat → BoolQDict) (pf1 pf2 : String → Option Rat)
    (argv1 argv2 : List String) (a1 a2 : Args)
    (h1 : parseArgs pf1 argv1 = some a1) (h2 : parseArgs pf2 argv2 = some a2) :
    runMain loadModel tokenizerOf ops datasetAt a1 =
      runMain loadModel tokenizerOf ops datasetAt a2 ∧
    runMain loadModel tokenizerOf ops datasetAt a1 =
      .ok (mainOutVal loadModel tokenizerOf ops datasetAt) ∧
    (mainOutVal loadModel tokenizerOf ops datasetAt).calls =
      [(bertPreProcessCall, ⟨5, 1 / 10000⟩), (bertPreProcessCall, ⟨7, 1 / 10000⟩),
       (bertPreProcessCall, ⟨9, 1 / 10000⟩), (bertPreProcessCall, ⟨5, 5 / 10000⟩),
       (bertPreProcessCall, ⟨7, 5 / 10000⟩), (bertPreProcessCall, ⟨9, 5 / 10000⟩),
       (bertPreProcessCall, ⟨5, 1 / 1000⟩), (bertPreProcessCall, ⟨7, 1 / 1000⟩),
       (bertPreProcessCall, ⟨9, 1 / 1000⟩)] := by
  refine ⟨?_, runMain_eq loadModel tokenizerOf ops datasetAt a1,
    mainOutVal_calls loadModel tokenizerOf ops datasetAt⟩
  rw [runMain_eq, runMain_eq]

/-- C1 witness: the empty command line and `["--small_subset"]` are both
accepted by the parser, and `claim_C1_sweep_ignores_cli` applies to the
two resulting argument records over the trivial oracles. -/
theorem claim_C1_sweep_ignores_cli_witness :
    runMain wLoadModel wTokenizerOf wOps wDatasetAt defaultArgs =
      runMain wLoadModel wTokenizerOf wOps wDatasetAt
        { defaultArgs with small_subset := .pyBool true } ∧
    runMain wLoadModel wTokenizerOf wOps wDatasetAt defaultArgs =
      .ok (mainOutVal wLoadModel wTokenizerOf wOps wDatasetAt) ∧
    (mainOutVal wLoadModel wTokenizerOf wOps wDatasetAt).calls =
      [(bertPreProcessCall, ⟨5, 1 / 10000⟩), (bertPreProcessCall, ⟨7, 1 / 10000⟩),
       (bertPreProcessCall, ⟨9, 1 / 10000⟩), (bertPreProcessCall, ⟨5, 5 / 10000⟩),
       (bertPreProcessCall, ⟨7, 5 / 10000⟩), (bertPreProcessCall, ⟨9, 5 / 10000⟩),
       (bertPreProcessCall, ⟨5, 1 / 1000⟩), (bertPreProcessCall, ⟨7, 1 / 1000⟩),
       (bertPreProcessCall, ⟨9, 1 / 1000⟩)] :=
  claim_C1_sweep_ignores_cli wLoadModel wTokenizerOf wOps wDatasetAt
    (fun _ => none) (fun _ => none) [] ["--small_subset"] defaultArgs
    { defaultArgs with small_subset := .pyBool true } rfl rfl

/-- C2: in the entry-point sweep, `pre_process` is always called with
`small_subset` equal to the string `'store_true'`, which is truthy, so
every run slices the train, dev and test splits as the first 10 examples
of the shuffled BoolQ training split; the 8000/validation/remainder split
is never taken and the `--small_subset` flag has no effect on slicing. -/
theorem claim_C2_small_subset_string {σ : Type} (loadModel : String → Nat → σ)
    (tokenizerOf : String → Tokenizer) (ops : TorchOps σ)
    (datasetAt : Nat → BoolQDict) :
    (∀ (args : Args) (out : MainOut),
       runMain loadModel tokenizerOf ops datasetAt args = .ok out →
       ∀ c ∈ out.calls, c.1.small_subset = PyVal.pyStr "store_true") ∧
    (PyVal.pyStr "store_true").truthy = true ∧
    (∀ dataset : BoolQDict,
       sliceBoolq dataset (PyVal.pyStr "store_true") =
         (dataset.train.take 10, dataset.train.take 10, dataset.train.take 10)) ∧
    (∀ (tok : Tokenizer) (dataset : BoolQDict),
       pre_process_datasets tok dataset (PyVal.pyStr "store_true") =
         (mkBoolQADataset (dataset.train.take 10) tok 128,
          mkBoolQADataset (dataset.train.take 10) tok 128,
          mkBoolQADataset (dataset.train.take 10) tok 128)) := by
  refine ⟨?_, rfl, fun dataset => rfl, fun tok dataset => rfl⟩
  intro args out h c hc
  rw [runMain_eq] at h
  injection h with h
  subst h
  rw [mainOutVal_calls] at hc
  simp only [List.mem_cons, List.not_mem_nil, or_false] at hc
  rcases hc with rfl | rfl | rfl | rfl | rfl | rfl | rfl | rfl | rfl <;> rfl

/-- C2 witness: the first sweep call read off a concrete run carries the
string `'store_true'`, and slicing a concrete one-example dataset with it
takes the 10-element prefix three times. -/
theorem claim_C2_small_subset_string_witness :
    bertPreProcessCall.small_subset = PyVal.pyStr "store_true" ∧
    sliceBoolq { train := [{ passage := "p", question := "q", answer := true }],
                 validation := [] } (PyVal.pyStr "store_true") =
      ([{ passage := "p", question := "q", answer := true }],
       [{ passage := "p", question := "q", answer := true }],
       [{ passage := "p", question := "q", answer := true }]) := by
  constructor
  · exact (claim_C2_small_subset_string wLoadModel wTokenizerOf wOps
      wDatasetAt).1 defaultArgs (mainOutVal wLoadModel wTokenizerOf wOps wDatasetAt)
      (runMain_eq wLoadModel wTokenizerOf wOps wDatasetAt defaultArgs)
      (bertPreProcessCall, ⟨5, 1 / 10000⟩)
      (by rw [mainOutVal_calls]; exact List.mem_cons_self _ _)
  · have h := (claim_C2_small_subset_string wLoadModel wTokenizerOf wOps
      wDatasetAt).2.2.1
      { train := [{ passage := "p", question := "q", answer := true }],
        validation := [] }
    simpa using h

/-- C3: the hyperparameter sweep is a triple nested loop over
`model_list`, `learning_rates` and `training_epoch`: `train` is called
exactly `1 * 3 * 3 = 9` times, once per (model, learning rate,
epoch-count) combination with the epoch count varying innermost, and one
`[valacc, lr, epoch, test_accuracy]` entry is appended to `valrank` per
call, in that order. -/
theorem claim_C3_triple_nested_sweep {σ : Type} (loadModel : String → Nat → σ)
    (tokenizerOf : String → Tokenizer) (ops : TorchOps σ)
    (datasetAt : Nat → BoolQDict) (args : Args) (out : MainOut)
    (h : runMain loadModel tokenizerOf ops datasetAt args = .ok out) :
    out.calls.length =
      model_list.length * learning_rates.length * training_epoch.length ∧
    out.calls.length = 9 ∧
    out.valrank.length = out.calls.length ∧
    out.calls.map (fun c => (c.1.model_name, c.2.lr, c.2.num_epochs)) =
      sweepRuns ∧
    out.valrank.map (fun e => (e.lr, e.epoch)) =
      out.calls.map (fun c => (c.2.lr, c.2.num_epochs)) := by
  rw [runMain_eq] at h
  injection h with h
  subst h
  exact ⟨rfl, rfl, rfl, rfl, rfl⟩

/-- C3 witness: `claim_C3_triple_nested_sweep` applied to the sweep over
the trivial oracles, whose success is `runMain_eq`. -/
theorem claim_C3_triple_nested_sweep_witness :
    (mainOutVal wLoadModel wTokenizerOf wOps wDatasetAt).calls.length =
      model_list.length * learning_rates.length * training_epoch.length ∧
    (mainOutVal wLoadModel wTokenizerOf wOps wDatasetAt).calls.length = 9 ∧
    (mainOutVal wLoadModel wTokenizerOf wOps wDatasetAt).valrank.length =
      (mainOutVal wLoadModel wTokenizerOf wOps wDatasetAt).calls.length ∧
    (mainOutVal wLoadModel wTokenizerOf wOps wDatasetAt).calls.map
        (fun c => (c.1.model_name, c.2.lr, c.2.num_epochs)) = sweepRuns ∧
    (mainOutVal wLoadModel wTokenizerOf wOps wDatasetAt).valrank.map
        (fun e => (e.lr, e.epoch)) =
      (mainOutVal wLoadModel wTokenizerOf wOps wDatasetAt).calls.map
        (fun c => (c.2.lr, c.2.num_epochs)) :=
  claim_C3_triple_nested_sweep wLoadModel wTokenizerOf wOps wDatasetAt
    defaultArgs (mainOutVal wLoadModel wTokenizerOf wOps wDatasetAt)
    (runMain_eq wLoadModel wTokenizerOf wOps wDatasetAt defaultArgs)

/-- C8: the program's file output artifact is a single PNG bar chart:
after the sweep completes, exactly one figure is saved, at path
`"bert-base-uncased.png"`, containing one bar per sweep run for
validation accuracy and one for test accuracy; no other file is written
by the program. -/
theorem claim_C8_single_png_artifact {σ : Type} (loadModel : String → Nat → σ)
    (tokenizerOf : String → Tokenizer) (ops : TorchOps σ)
    (datasetAt : Nat → BoolQDict) (args : Args) (out : MainOut)
    (h : runMain loadModel tokenizerOf ops datasetAt args = .ok out) :
    out.files =
      [("bert-base-uncased.png",
        mkFigure (out.valrank.map ValRankEntry.valacc)
          (out.valrank.map fun e => e.test_accuracy.accuracy))] ∧
    out.files.length = 1 ∧
    out.valrank.length = 9 ∧
    ∀ f ∈ out.files,
      f.1 = "bert-base-uncased.png" ∧
      f.2.series.map (fun s => (s.label, s.heights.length)) =
        [("valid_accuracy", out.valrank.length),
         ("test_accuracy", out.valrank.length)] := by
  rw [runMain_eq] at h
  injection h with h
  subst h
  refine ⟨rfl, rfl, rfl, ?_⟩
  intro f hf
  have hfiles : (mainOutVal loadModel tokenizerOf ops datasetAt).files =
      [("bert-base-uncased.png",
        mkFigure ((mainOutVal loadModel tokenizerOf ops datasetAt).valrank.map
            ValRankEntry.valacc)
          ((mainOutVal loadModel tokenizerOf ops datasetAt).valrank.map
            fun e => e.test_accuracy.accuracy))] := rfl
  rw [hfiles, List.mem_singleton] at hf
  subst hf
  exact ⟨rfl, rfl⟩

/-- C8 witness: `claim_C8_single_png_artifact` applied to the sweep over
the trivial oracles. -/
theorem claim_C8_single_png_artifact_witness :
    (mainOutVal wLoadModel wTokenizerOf wOps wDatasetAt).files =
      [("bert-base-uncased.png",
        mkFigure ((mainOutVal wLoadModel wTokenizerOf wOps wDatasetAt).valrank.map
            ValRankEntry.valacc)
          ((mainOutVal wLoadModel wTokenizerOf wOps wDatasetAt).valrank.map
            fun e => e.test_accuracy.accuracy))] ∧
    (mainOutVal wLoadModel wTokenizerOf wOps wDatasetAt).files.length = 1 ∧
    (mainOutVal wLoadModel wTokenizerOf wOps wDatasetAt).valrank.length = 9 ∧
    ∀ f ∈ (mainOutVal wLoadModel wTokenizerOf wOps wDatasetAt).files,
      f.1 = "bert-base-uncased.png" ∧
      f.2.series.map (fun s => (s.label, s.heights.length)) =
        [("valid_accuracy",
          (mainOutVal wLoadModel wTokenizerOf wOps wDatasetAt).valrank.length),
         ("test_accuracy",
          (mainOutVal wLoadModel wTokenizerOf wOps wDatasetAt).valrank.length)] :=
  claim_C8_single_png_artifact wLoadModel wTokenizerOf wOps wDatasetAt
    defaultArgs (mainOutVal wLoadModel wTokenizerOf wOps wDatasetAt)
    (runMain_eq wLoadModel wTokenizerOf wOps wDatasetAt defaultArgs)

/-- C5: the training loop is a standard forward/backward/optimizer-step
loop: for every epoch in `range(num_epochs)` and every batch of the
training dataloader, `train` performs, in order, the forward pass, the
cross-entropy loss on logits and labels, `loss.backward()`,
`optimizer.step()`, `lr_scheduler.step()`, `optimizer.zero_grad()`, and
then updates the rolling training-accuracy metric with
argmax-over-logits predictions. -/
theorem claim_C5_training_loop_order {σ : Type} (ops : TorchOps σ) (m : σ)
    (n : Nat) (tdl vdl : List Batch) :
    (trainRun ops m n tdl vdl).trace =
      ((List.range n).flatMap fun _ =>
        (tdl.flatMap fun _ =>
          [TrainEvent.forward, TrainEvent.lossCompute, TrainEvent.backward,
           TrainEvent.optimizerStep, TrainEvent.schedulerStep,
           TrainEvent.zeroGrad, TrainEvent.metricAdd]) ++
          [TrainEvent.epochEval]) ∧
    ∀ (s : σ) (metric : Metric) (tr : List TrainEvent) (batch : Batch),
      trainBatchStep ops (s, metric, tr) batch =
        (ops.trainStep s batch,
         metric.addBatch ((ops.forwardLogits s batch).map argmaxIdx)
           batch.labels,
         tr ++ perBatchEvents) := by
  refine ⟨trainRun_trace ops m n tdl vdl, ?_⟩
  intro s metric tr batch
  rfl

/-- C7: for every `num_epochs ≥ 1`, `train` returns the triple (mean over
epochs of the per-epoch training accuracies, mean over epochs of the
per-epoch validation accuracies, test-set accuracy dict from
`evaluate_model`), despite its docstring saying `:return None`; for
`num_epochs = 0` it raises `NameError` because `acc` and `val` are first
bound inside the epoch loop. -/
theorem claim_C7_train_return {σ : Type} (ops : TorchOps σ) (mymodel : σ)
    (tdl vdl sdl : List Batch) (dev : String) (lr : Rat) :
    (∀ n, 1 ≤ n →
      train ops mymodel n tdl vdl sdl dev lr =
        .ok (npMean ((trainRun ops mymodel n tdl vdl).train_acc.map
              AccDict.accuracy),
             npMean ((trainRun ops mymodel n tdl vdl).val_acc.map
              AccDict.accuracy),
             evaluate_model ops (trainRun ops mymodel n tdl vdl).model sdl)) ∧
    train ops mymodel 0 tdl vdl sdl dev lr = .error .nameError := by
  constructor
  · intro n hn
    rw [train_eq_ok ops mymodel n tdl vdl sdl dev lr hn]
    rfl
  · rfl

/-- C7 witness: a concrete instantiation (trivial model state, empty
dataloaders, one epoch) of the positive-epoch part of `claim_C7_train_return`. -/
theorem claim_C7_train_return_witness :
    train ⟨fun _ _ => [], fun _ _ => ()⟩ () 1 [] [] [] "cuda" (1 / 10000) =
      .ok (npMean ((trainRun ⟨fun _ _ => [], fun _ _ => ()⟩ () 1 [] []).train_acc.map
            AccDict.accuracy),
           npMean ((trainRun ⟨fun _ _ => [], fun _ _ => ()⟩ () 1 [] []).val_acc.map
            AccDict.accuracy),
           evaluate_model ⟨fun _ _ => [], fun _ _ => ()⟩
             (trainRun ⟨fun _ _ => [], fun _ _ => ()⟩ () 1 [] []).model []) :=
  (claim_C7_train_return ⟨fun _ _ => [], fun _ _ => ()⟩ () [] [] [] "cuda"
    (1 / 10000)).1 1 (by decide)

/-- On a two-column row of logits, `torch.argmax` along dimension 1
returns 0 or 1. -/
theorem argmaxIdx_two (row : List Rat) (h : row.length = 2) : argmaxIdx row < 2 := by
  match row, h with
  | [a, b], _ =>
      show argmaxFrom 0 a 1 [b] < 2
      simp only [argmaxFrom]
      split <;> omega

/-- C4: tokenized encodings are fixed-length: for every in-range index,
`BoolQADataset.__getitem__` returns `input_ids` and `attention_mask`
tensors of length exactly `max_len` (128, as set in `pre_process` and
used for all three datasets), under the hypothesis that the tokenizer
honours `padding="max_length"` and `truncation=True` as configured in
`encode_plus`. -/
theorem claim_C4_fixed_length_encodings (tok : Tokenizer) (dataset : BoolQDict)
    (small_subset : PyVal)
    (htok : ∀ (s : String) (n : Nat),
      ((tok s n).input_ids).length = n ∧ ((tok s n).attention_mask).length = n) :
    ∀ d : BoolQADataset,
      (d = (pre_process_datasets tok dataset small_subset).1 ∨
       d = (pre_process_datasets tok dataset small_subset).2.1 ∨
       d = (pre_process_datasets tok dataset small_subset).2.2) →
      d.max_len = 128 ∧
      ∀ (i : Nat) (item : ItemDict), d.getitem i = some item →
        item.input_ids.length = 128 ∧ item.attention_mask.length = 128 := by
  have key : ∀ (ps qs : List String) (answers : List Bool) (i : Nat)
      (item : ItemDict),
      (BoolQADataset.mk ps qs answers tok 128).getitem i = some item →
      item.input_ids.length = 128 ∧ item.attention_mask.length = 128 := by
    intro ps qs answers i item hit
    unfold BoolQADataset.getitem at hit
    split at hit
    · injection hit with hit
      subst hit
      exact ⟨(htok _ 128).1, (htok _ 128).2⟩
    · exact Option.noConfusion hit
  intro d hd
  rcases hd with rfl | rfl | rfl <;> exact ⟨rfl, key _ _ _⟩

/-- C4 witness: over the padding tokenizer and a one-example dataset, item
0 of the train dataset built by `pre_process` has both tensors of length
128. -/
theorem claim_C4_fixed_length_encodings_witness :
    ((pre_process_datasets (wTokenizerOf "bert-base-uncased")
        { train := [{ passage := "p", question := "q", answer := true }],
          validation := [] } (.pyStr "store_true")).1.getitem 0 =
      some { input_ids := List.replicate 128 0,
             attention_mask := List.replicate 128 0, labels := 1 }) ∧
    ({ input_ids := List.replicate 128 0, attention_mask := List.replicate 128 0,
       labels := 1 } : ItemDict).input_ids.length = 128 ∧
    ({ input_ids := List.replicate 128 0, attention_mask := List.replicate 128 0,
       labels := 1 } : ItemDict).attention_mask.length = 128 := by
  refine ⟨rfl, ?_⟩
  exact (claim_C4_fixed_length_encodings (wTokenizerOf "bert-base-uncased")
    { train := [{ passage := "p", question := "q", answer := true }],
      validation := [] } (.pyStr "store_true")
    (by intro s n; constructor <;> simp [wTokenizerOf])
    _ (Or.inl rfl)).2 0 _ rfl

/-- C9: answers are binary throughout: every label `BoolQADataset`
produces is the `torch.long` encoding of the stored answer at that index,
`pre_process` instantiates the model with `num_labels=2`, and — when
every logits row the model produces has 2 columns — every prediction that
`evaluate_model` and `train` feed to the accuracy metric is an argmax
over dimension 1 of a 2-column logits tensor, hence lies in {0, 1}. -/
theorem claim_C9_binary_answers {σ : Type} (ops : TorchOps σ)
    (hlog : ∀ (s : σ) (b : Batch), ∀ row ∈ ops.forwardLogits s b,
      row.length = 2) :
    (∀ (ds : BoolQADataset) (i : Nat) (item : ItemDict) (a : Bool),
       ds.getitem i = some item → ds.answers[i]? = some a →
       item.labels = (if a then 1 else 0) ∧ item.labels < 2) ∧
    (∀ (loadModel : String → Nat → σ) (tokenizerOf : String → Tokenizer)
       (dataset : BoolQDict) (model_name : String) (batch_size : Nat)
       (device : String) (small_subset : PyVal),
       (pre_process loadModel tokenizerOf dataset model_name batch_size device
         small_subset).pretrained_model = loadModel model_name 2) ∧
    (∀ (model : σ) (dl : List Batch),
       ∀ p ∈ (evalMetric ops model dl).preds, p < 2) ∧
    (∀ (tdl : List Batch) (model : σ),
       ∀ p ∈ (epochFold ops tdl model).2.1.preds, p < 2) := by
  refine ⟨?_, fun _ _ _ _ _ _ _ => rfl, ?_, ?_⟩
  · intro ds i item a hit ha
    unfold BoolQADataset.getitem at hit
    split at hit
    · rename_i passage question answer hp hq hans
      rw [ha] at hans
      injection hans with hans
      injection hit with hit
      subst hit
      subst hans
      refine ⟨rfl, ?_⟩
      by_cases hb : a <;> simp [hb]
    · exact Option.noConfusion hit
  · intro model dl
    have gen : ∀ (l : List Batch) (m0 : Metric), (∀ p ∈ m0.preds, p < 2) →
        ∀ p ∈ (l.foldl (fun m batch =>
            m.addBatch ((ops.forwardLogits model batch).map argmaxIdx)
              batch.labels) m0).preds, p < 2 := by
      intro l
      induction l with
      | nil => intro m0 h0; exact h0
      | cons b bs ih =>
          intro m0 h0
          apply ih
          intro p hp
          simp only [Metric.addBatch, List.mem_append] at hp
          rcases hp with hp | hp
          · exact h0 p hp
          · rcases List.mem_map.mp hp with ⟨row, hrow, rfl⟩
            exact argmaxIdx_two row (hlog model b row hrow)

    exact gen dl Metric.empty (by intro p hp; exact absurd hp (List.not_mem_nil p))
  · intro tdl model
    have gen : ∀ (l : List Batch) (st : σ × Metric × List TrainEvent),
        (∀ p ∈ st.2.1.preds, p < 2) →
        ∀ p ∈ (l.foldl (trainBatchStep ops) st).2.1.preds, p < 2 := by
      intro l
      induction l with
      | nil => intro st h0; exact h0
      | cons b bs ih =>
          intro st h0
          apply ih
          intro p hp
          simp only [trainBatchStep, Metric.addBatch, List.mem_append] at hp
          rcases hp with hp | hp
          · exact h0 p hp
          · rcases List.mem_map.mp hp with ⟨row, hrow, rfl⟩
            exact argmaxIdx_two row (hlog st.1 b row hrow)
    exact gen tdl _ (by intro p hp; exact absurd hp (List.not_mem_nil p))

/-- C9 witness: on a concrete one-example dataset with answer `True`, the
label is 1 and lies below 2 (the logits hypothesis is discharged by a
model whose every row is `[0, 1]`). -/
theorem claim_C9_binary_answers_witness :
    ({ input_ids := List.replicate 128 0, attention_mask := List.replicate 128 0,
       labels := 1 } : ItemDict).labels = (if true then 1 else 0) ∧
    ({ input_ids := List.replicate 128 0, attention_mask := List.replicate 128 0,
       labels := 1 } : ItemDict).labels < 2 :=
  (claim_C9_binary_answers
    (σ := Unit) { forwardLogits := fun _ b => b.labels.map fun _ => [0, 1],
                  trainStep := fun _ _ => () }
    (by
      intro s b row hrow
      rcases List.mem_map.mp hrow with ⟨x, _, rfl⟩
      rfl)).1
    { passages := ["p"], questions := ["q"], answers := [true],
      tokenizer := wTokenizerOf "bert-base-uncased", max_len := 128 }
    0 _ true rfl rfl

/-- C10: `BoolQADataset.__len__` returns `len(self.answers)` regardless of
the lengths of `passages` and `questions`, and for every in-range index
`i`, `__getitem__(i)` builds the encoder input as
`questions[i] + " [SEP] " + str(passages[i])` — question first, so
truncating the input to at most the question's length keeps only question
text and drops passage text first — paired with the label `answers[i]`. -/
theorem claim_C10_len_and_question_first (ds : BoolQADataset) :
    ds.len = ds.answers.length ∧
    ∀ (i : Nat) (p q : String) (a : Bool),
      ds.passages[i]? = some p → ds.questions[i]? = some q →
      ds.answers[i]? = some a →
      ds.getitem i =
        some { input_ids :=
                 (ds.tokenizer (q ++ " [SEP] " ++ p) ds.max_len).input_ids,
               attention_mask :=
                 (ds.tokenizer (q ++ " [SEP] " ++ p) ds.max_len).attention_mask,
               labels := if a then 1 else 0 } ∧
      ∀ k ≤ q.length, ((q ++ " [SEP] " ++ p).data.take k) = q.data.take k := by
  refine ⟨rfl, ?_⟩
  intro i p q a hp hq ha
  constructor
  · unfold BoolQADataset.getitem
    rw [hp, hq, ha]
  · intro k hk
    have hdata : (q ++ " [SEP] " ++ p).data = q.data ++ (" [SEP] ".data ++ p.data) := by
      rw [String.data_append, String.data_append, List.append_assoc]
    rw [hdata]
    exact List.take_append_of_le_length hk

/-- C10 witness: on a concrete dataset whose `passages` list is longer
than its `answers` list, the length is the answers' length and item 0 is
built question-first. -/
theorem claim_C10_len_and_question_first_witness :
    (BoolQADataset.mk ["p1", "p2"] ["q1"] [true]
      (wTokenizerOf "bert-base-uncased") 128).len = 1 ∧
    (BoolQADataset.mk ["p1", "p2"] ["q1"] [true]
      (wTokenizerOf "bert-base-uncased") 128).getitem 0 =
      some { input_ids := List.replicate 128 0,
             attention_mask := List.replicate 128 0, labels := 1 } ∧
    ("q1 [SEP] p1").data.take 2 = "q1".data.take 2 := by
  have h := claim_C10_len_and_question_first
    (BoolQADataset.mk ["p1", "p2"] ["q1"] [true]
      (wTokenizerOf "bert-base-uncased") 128)
  have h2 := h.2 0 "p1" "q1" true rfl rfl rfl
  refine ⟨h.1, ?_, ?_⟩
  · rw [h2.1]; rfl
  · have h3 := h2.2 2 (by decide)
    rw [show ("q1 [SEP] p1") = "q1" ++ " [SEP] " ++ "p1" from rfl]
    exact h3

end MultiModel
